import Mathlib

/-
Verification of the data-preparation, filtering, KPI, aggregation and export
logic of the air-quality dashboard (src/app.py).

The pandas dataframe is embedded as a list of rows.  Numeric cells are
rational numbers; the pandas missing value (NaN) is embedded as Option.none.
Library calls with documented semantics (pd.to_numeric with errors="coerce",
str.replace, pd.to_datetime with errors="coerce", Series.std with ddof=1,
DataFrame.to_csv) are translated into explicit Lean functions that follow
those semantics on the value formats this data source uses.
-/

namespace AirDashboard

/-! ## Character-level string utilities -/

/-- Splits a character list on a separator character.  The result always has
one more group than the number of separator occurrences. -/
def splitOnChar (sep : Char) : List Char → List (List Char)
  | [] => [[]]
  | c :: cs =>
    if c = sep then [] :: splitOnChar sep cs
    else
      match splitOnChar sep cs with
      | [] => [[c]]
      | g :: gs => (c :: g) :: gs

/-- Numeric value of a list of decimal digit characters, most significant
digit first. -/
def digitsToNat (cs : List Char) : ℕ :=
  cs.foldl (fun a c => 10 * a + (c.toNat - 48)) 0

/-! ## Numeric normalization (src/app.py lines 133-137)

The source runs, for each of the columns PM10, TEMP, HUMI:
  pd.to_numeric(df[col].astype(str).str.replace(",", "."), errors="coerce")
str.replace with a plain pattern replaces every occurrence of the comma.
pd.to_numeric with errors="coerce" parses a decimal literal and yields NaN
on anything unparseable (embedded as none). -/

/-- Embeds str.replace(",", ".") : every comma becomes a dot. -/
def str_replace_comma (cs : List Char) : List Char :=
  cs.map (fun c => if c = ',' then '.' else c)

/-- Parses an unsigned decimal literal: digits with at most one dot and at
least one digit overall, as accepted by pd.to_numeric on this data. -/
def parseUnsigned (cs : List Char) : Option ℚ :=
  match splitOnChar '.' cs with
  | [w] =>
    if w ≠ [] ∧ w.all Char.isDigit then some (digitsToNat w) else none
  | [w, f] =>
    if (w ≠ [] ∨ f ≠ []) ∧ w.all Char.isDigit ∧ f.all Char.isDigit then
      some ((digitsToNat w : ℚ) + (digitsToNat f : ℚ) / (10 ^ f.length))
    else none
  | _ => none

/-- Parses an optionally signed decimal literal. -/
def parseSigned (cs : List Char) : Option ℚ :=
  match cs with
  | '-' :: rest => (parseUnsigned rest).map (fun q => -q)
  | '+' :: rest => parseUnsigned rest
  | _ => parseUnsigned cs

/-- Embeds pd.to_numeric(-, errors="coerce") on a string cell: unparseable
values become none (NaN), never an error. -/
def to_numeric (cs : List Char) : Option ℚ :=
  parseSigned cs

/-- Composition applied by prepare_data to each raw numeric cell:
replace every comma by a dot, then coerce to a number. -/
def parse_cell (s : String) : Option ℚ :=
  to_numeric (str_replace_comma s.toList)

/-! ## Timestamp parsing (src/app.py lines 140-143) -/

/-- Calendar date, the value of the derived date column. -/
structure Date where
  year : ℕ
  month : ℕ
  day : ℕ
deriving DecidableEq

/-- Parsed date-time, the value of the date_heure column. -/
structure DateTime where
  year : ℕ
  month : ℕ
  day : ℕ
  hour : ℕ
  minute : ℕ
deriving DecidableEq

/-- Gregorian leap-year test. -/
def isLeap (y : ℕ) : Prop :=
  y % 4 = 0 ∧ (y % 100 ≠ 0 ∨ y % 400 = 0)

instance (y : ℕ) : Decidable (isLeap y) := by
  unfold isLeap; infer_instance

/-- Number of days in a month of a given year. -/
def daysInMonth (y m : ℕ) : ℕ :=
  if m = 2 then (if isLeap y then 29 else 28)
  else if m = 4 ∨ m = 6 ∨ m = 9 ∨ m = 11 then 30
  else 31

/-- Embeds pd.to_datetime(-, errors="coerce") on the date-time strings of
this data source, format month/day/year hour:minute (pandas default,
dayfirst false); invalid strings become none (NaT). -/
def to_datetime (s : String) : Option DateTime :=
  match splitOnChar ' ' s.toList with
  | [datePart, timePart] =>
    match splitOnChar '/' datePart, splitOnChar ':' timePart with
    | [ms, ds, ys], [hs, mins] =>
      if ms ≠ [] ∧ ds ≠ [] ∧ ys ≠ [] ∧ hs ≠ [] ∧ mins ≠ [] ∧
          ms.all Char.isDigit ∧ ds.all Char.isDigit ∧ ys.all Char.isDigit ∧
          hs.all Char.isDigit ∧ mins.all Char.isDigit then
        let m := digitsToNat ms
        let d := digitsToNat ds
        let y := digitsToNat ys
        let h := digitsToNat hs
        let mi := digitsToNat mins
        if 1 ≤ y ∧ 1 ≤ m ∧ m ≤ 12 ∧ 1 ≤ d ∧ d ≤ daysInMonth y m ∧
            h ≤ 23 ∧ mi ≤ 59 then
          some ⟨y, m, d, h, mi⟩
        else none
      else none
    | _, _ => none
  | _ => none

/-! ## Weekday (src/app.py line 151, Python datetime.weekday, Monday = 0) -/

/-- Days elapsed since 1970-01-01 (Hinnant days-from-civil algorithm),
for years from 1 on. -/
def daysFromCivil (y m d : ℕ) : ℤ :=
  let yAdj := if m ≤ 2 then y - 1 else y
  let era := yAdj / 400
  let yoe := yAdj % 400
  let mp := (m + 9) % 12
  let doy := (153 * mp + 2) / 5 + (d - 1)
  let doe := yoe * 365 + yoe / 4 - yoe / 100 + doy
  (era * 146097 + doe : ℤ) - 719468

/-- Embeds the Python weekday method: Monday is 0, Sunday is 6.
1970-01-01 was a Thursday, weekday 3. -/
def pyWeekday (y m d : ℕ) : ℕ :=
  ((daysFromCivil y m d + 3) % 7).toNat

/-! ## Rows of the raw and prepared dataframes -/

/-- One row of the raw semicolon-separated file: the date/heure column and
the three numeric columns as strings (src/app.py lines 108-114). -/
structure RawRow where
  dateHeure : String
  pm10 : String
  temp : String
  humi : String
deriving DecidableEq

/-- One row after the numeric and datetime conversions of prepare_data,
before the dropna step.  The original date/heure string column is kept
(the copy only overwrites PM10, TEMP, HUMI and adds date_heure). -/
structure ConvertedRow where
  dateHeure : String
  pm10 : Option ℚ
  temp : Option ℚ
  humi : Option ℚ
  date_heure : Option DateTime
deriving DecidableEq

/-- One row of the prepared dataframe with all derived columns
(src/app.py lines 117-180): original date/heure string, converted numeric
columns, parsed date_heure, and the derived date, heure, weekday,
jour_semaine, tranche_horaire columns. -/
structure PreparedRow where
  dateHeure : String
  pm10 : Option ℚ
  temp : Option ℚ
  humi : Option ℚ
  date_heure : Option DateTime
  date : Date
  heure : ℕ
  weekday : ℕ
  jour_semaine : String
  tranche_horaire : String
deriving DecidableEq

/-! ## Preparation (src/app.py lines 117-180) -/

/-- Weekday index to French day name, the weekday_map dict of
src/app.py lines 153-161.  Keys outside the dict map to NaN in pandas,
embedded here as the empty string; weekday is always 0 to 6. -/
def weekday_map (w : ℕ) : String :=
  match w with
  | 0 => "Lundi"
  | 1 => "Mardi"
  | 2 => "Mercredi"
  | 3 => "Jeudi"
  | 4 => "Vendredi"
  | 5 => "Samedi"
  | 6 => "Dimanche"
  | _ => ""

/-- Time bucket of an hour, the tranche_horaire function of
src/app.py lines 164-176. -/
def tranche_horaire (h : ℕ) : String :=
  if (7 ≤ h ∧ h ≤ 9) ∨ (17 ≤ h ∧ h ≤ 19) then "Heures de pointe"
  else if 10 ≤ h ∧ h ≤ 16 then "Journée"
  else "Nuit / Soirée"

/-- Conversion step of prepare_data: numeric columns through comma
replacement and to_numeric, date/heure through to_datetime. -/
def convertRow (raw : RawRow) : ConvertedRow :=
  { dateHeure := raw.dateHeure
    pm10 := parse_cell raw.pm10
    temp := parse_cell raw.temp
    humi := parse_cell raw.humi
    date_heure := to_datetime raw.dateHeure }

/-- Derivation step of prepare_data, applied after the dropna step, where
date_heure is never none: date, heure, weekday, jour_semaine and
tranche_horaire columns computed from the parsed timestamp. -/
def addDerived (r : ConvertedRow) : PreparedRow :=
  let dt := r.date_heure.getD ⟨1970, 1, 1, 0, 0⟩
  { dateHeure := r.dateHeure
    pm10 := r.pm10
    temp := r.temp
    humi := r.humi
    date_heure := r.date_heure
    date := ⟨dt.year, dt.month, dt.day⟩
    heure := dt.hour
    weekday := pyWeekday dt.year dt.month dt.day
    jour_semaine := weekday_map (pyWeekday dt.year dt.month dt.day)
    tranche_horaire := tranche_horaire dt.hour }

/-- Embeds prepare_data (src/app.py lines 117-180): convert the numeric and
datetime columns, drop every row whose date_heure or PM10 is missing
(df.dropna(subset=["date_heure", "PM10"]), line 146), then add the derived
columns. -/
def prepare_data (rows : List RawRow) : List PreparedRow :=
  (((rows.map convertRow).filter
      (fun r => r.date_heure.isSome && r.pm10.isSome)).map addDerived)

/-! ## Filter stage (src/app.py lines 356-365) -/

/-- Ordering of Python date objects: lexicographic on year, month, day. -/
def date_le (a b : Date) : Prop :=
  a.year < b.year ∨
    (a.year = b.year ∧
      (a.month < b.month ∨ (a.month = b.month ∧ a.day ≤ b.day)))

instance (a b : Date) : Decidable (date_le a b) := by
  unfold date_le; infer_instance

/-- Embeds the filter of src/app.py lines 361-365: rows whose date is
between date_debut and date_fin inclusive and whose tranche_horaire is in
the selected list. -/
def df_filtered (df : List PreparedRow) (date_debut date_fin : Date)
    (tranches_selectionnees : List String) : List PreparedRow :=
  df.filter (fun r =>
    decide (date_le date_debut r.date) && decide (date_le r.date date_fin) &&
      decide (r.tranche_horaire ∈ tranches_selectionnees))

/-! ## KPIs (src/app.py lines 380-396) -/

/-- PM10 value of a prepared row.  After preparation the PM10 column is
never missing (the dropna step removed those rows), so the default is
never used. -/
def pm10Val (r : PreparedRow) : ℚ :=
  r.pm10.getD 0

/-- Arithmetic mean of a list of rationals (pandas Series.mean on a
NaN-free column). -/
def listMean (xs : List ℚ) : ℚ :=
  xs.sum / (xs.length : ℚ)

/-- Embeds pm10_moyen = df_filtered["PM10"].mean() (src/app.py line 380). -/
def pm10_moyen (df : List PreparedRow) : ℚ :=
  listMean (df.map pm10Val)

/-- Square of pandas Series.std with the default ddof=1 on a NaN-free
column (src/app.py line 384): none (NaN) when fewer than two values,
otherwise the sum of squared deviations from the mean divided by n - 1.
The source displays the square root of this quantity; working with the
square keeps the development in exact arithmetic. -/
def pm10_std_sq (df : List PreparedRow) : Option ℚ :=
  if (df.map pm10Val).length < 2 then none
  else
    some ((((df.map pm10Val).map
        (fun x => (x - listMean (df.map pm10Val)) ^ 2)).sum) /
      (((df.map pm10Val).length : ℚ) - 1))

/-- Fixed threshold SEUIL_PM10 = 50 of src/app.py line 386. -/
def SEUIL_PM10 : ℚ := 50

/-- Embeds the band classification of src/app.py lines 388-396: the value
of the phrase_pm10 variable as a function of the mean. -/
def phrase_pm10 (m : ℚ) : String :=
  if m < 20 then "Air de bonne qualité"
  else if m < SEUIL_PM10 then "Air moyen"
  else "Dépassement du seuil recommandé"

/-! ## Grouped aggregation (src/app.py lines 247-250) -/

/-- Grouping key of the heatmap aggregation. -/
def rowKey (r : PreparedRow) : String × String :=
  (r.jour_semaine, r.tranche_horaire)

/-- PM10 values of the rows of one group. -/
def groupPm10 (df : List PreparedRow) (k : String × String) : List ℚ :=
  (df.filter (fun r => decide (rowKey r = k))).map pm10Val

/-- Embeds the aggregation of plot_heatmap_tranche_horaire
(src/app.py lines 247-250): df.groupby(["jour_semaine",
"tranche_horaire"])["PM10"].mean() — one row per key pair present in the
input, carrying the group mean.  The key order pandas produces is not
relevant to any property below. -/
def heatmap_agg (df : List PreparedRow) : List ((String × String) × ℚ) :=
  ((df.map rowKey).dedup).map (fun k => (k, listMean (groupPm10 df k)))

/-! ## Export (src/app.py lines 506-515) -/

/-- Fractional decimal digits of num/den with bounded depth. -/
def fracDigits : ℕ → ℕ → ℕ → List Char
  | 0, _, _ => []
  | _, 0, _ => []
  | fuel + 1, num, den =>
    let q := (num * 10) / den
    Char.ofNat (q + 48) :: fracDigits fuel ((num * 10) % den) den

/-- Decimal rendering of a float cell, as to_csv prints a float column
value (for the decimal-finite values this pipeline produces). -/
def renderQ (q : ℚ) : String :=
  let sign := if q < 0 then "-" else ""
  let n := q.num.natAbs
  let frac := fracDigits 30 (n % q.den) q.den
  sign ++ toString (n / q.den) ++ "." ++
    (if frac = [] then "0" else String.mk frac)

/-- Rendering of a possibly missing float cell: NaN prints as empty. -/
def renderOptQ (q : Option ℚ) : String :=
  match q with
  | none => ""
  | some v => renderQ v

/-- Left pad of a numeral with zeros. -/
def padNum (width n : ℕ) : String :=
  let s := toString n
  String.mk (List.replicate (width - s.length) '0') ++ s

/-- Rendering of a date cell, ISO format as Python date prints. -/
def renderDate (d : Date) : String :=
  padNum 4 d.year ++ "-" ++ padNum 2 d.month ++ "-" ++ padNum 2 d.day

/-- Rendering of the parsed timestamp cell as to_csv prints a datetime
column value. -/
def renderOptDT (dt : Option DateTime) : String :=
  match dt with
  | none => ""
  | some t =>
    padNum 4 t.year ++ "-" ++ padNum 2 t.month ++ "-" ++ padNum 2 t.day ++
      " " ++ padNum 2 t.hour ++ ":" ++ padNum 2 t.minute ++ ":00"

/-- Header of the exported CSV: every column of the filtered frame, in
dataframe order — the four raw columns of the source file, then the
columns prepare_data added (src/app.py line 507, to_csv(index=False)). -/
def csv_header : List String :=
  ["date/heure", "PM10", "TEMP", "HUMI", "date_heure", "date", "heure",
    "weekday", "jour_semaine", "tranche_horaire"]

/-- Cell values of one exported row, in the same column order. -/
def csv_row (r : PreparedRow) : List String :=
  [r.dateHeure, renderOptQ r.pm10, renderOptQ r.temp, renderOptQ r.humi,
    renderOptDT r.date_heure, renderDate r.date, toString r.heure,
    toString r.weekday, r.jour_semaine, r.tranche_horaire]

/-- Lines of the exported CSV: the header line then one comma-joined line
per row of the filtered frame. -/
def csv_lines (df : List PreparedRow) : List String :=
  String.intercalate "," csv_header ::
    df.map (fun r => String.intercalate "," (csv_row r))

/-- Embeds convert_df (src/app.py lines 506-507):
df.to_csv(index=False).encode("utf-8") — the whole filtered frame, every
column, one newline-terminated line per row after the header.  The utf-8
encoding is the identity on the text produced here. -/
def convert_df (df : List PreparedRow) : String :=
  String.join ((csv_lines df).map (fun line => line ++ "\n"))

/-! ## Loader (src/app.py lines 107-114 and 292-295) -/

/-- Error raised by the loader when the source file is missing or
unreadable: pd.read_csv raises, nothing in the script catches it, and the
spec names this failure DataSourceError. -/
inductive DataSourceError where
  | fileNotFound : String → DataSourceError
deriving DecidableEq

/-- Path of the source file, src/app.py line 292. -/
def CSV_PATH : String :=
  "qualite-de-lair-mesuree-dans-la-station-chatelet-rer-a0.csv"

/-- Embeds load_raw_data (src/app.py lines 107-114): the filesystem is a
partial map from paths to parsed raw rows; a missing or unreadable path
makes pd.read_csv raise, embedded as the error branch.  The st.cache_data
decorator memoizes a pure function and does not change its value. -/
def load_raw_data (fs : String → Option (List RawRow))
    (csv_path : String) : Except DataSourceError (List RawRow) :=
  match fs csv_path with
  | some rows => Except.ok rows
  | none => Except.error (DataSourceError.fileNotFound csv_path)

/-- Embeds the top-level script flow of src/app.py lines 294-295: the
loader error propagates (the script has no handler), so no prepared
dataset and no dashboard state is produced from a missing file. -/
def run_dashboard (fs : String → Option (List RawRow)) :
    Except DataSourceError (List PreparedRow) := do
  let df_raw ← load_raw_data fs CSV_PATH
  pure (prepare_data df_raw)

end AirDashboard

namespace AirDashboard

/-! ## Helper lemmas -/

theorem splitOnChar_ne_nil (sep : Char) (cs : List Char) :
    splitOnChar sep cs ≠ [] := by
  cases cs with
  | nil => simp [splitOnChar]
  | cons c cs =>
    by_cases hc : c = sep
    · simp [splitOnChar, hc]
    · rcases h : splitOnChar sep cs with _ | ⟨g, gs⟩ <;>
        simp [splitOnChar, hc, h]

theorem splitOnChar_length (sep : Char) (cs : List Char) :
    (splitOnChar sep cs).length = cs.count sep + 1 := by
  induction cs with
  | nil => simp [splitOnChar]
  | cons c cs ih =>
    by_cases hc : c = sep
    · simp [splitOnChar, hc, List.count_cons, ih]
    · rcases h : splitOnChar sep cs with _ | ⟨g, gs⟩
      · exact absurd h (splitOnChar_ne_nil sep cs)
      · rw [h] at ih
        simp [splitOnChar, hc, h, List.count_cons, ih]
        simp at ih
        omega

theorem count_dot_str_replace (cs : List Char) :
    (str_replace_comma cs).count '.' = cs.count ',' + cs.count '.' := by
  induction cs with
  | nil => rfl
  | cons c cs ih =>
    by_cases h1 : c = ','
    · simp [str_replace_comma, h1, List.count_cons, ih] at *
      omega
    · by_cases h2 : c = '.'
      · simp [str_replace_comma, h1, h2, List.count_cons, ih] at *
        omega
      · simp [str_replace_comma, h1, h2, List.count_cons, ih] at *

theorem parseUnsigned_none_of_two_dots (cs : List Char)
    (h : 2 ≤ cs.count '.') : parseUnsigned cs = none := by
  have hl : 3 ≤ (splitOnChar '.' cs).length := by
    rw [splitOnChar_length]; omega
  rcases hs : splitOnChar '.' cs with - | ⟨a, - | ⟨b, - | ⟨c, rest⟩⟩⟩ <;>
    rw [hs] at hl
  · simp at hl
  · simp at hl
  · simp at hl
  · simp [parseUnsigned, hs]

theorem to_numeric_none_of_two_dots (cs : List Char)
    (h : 2 ≤ cs.count '.') : to_numeric cs = none := by
  unfold to_numeric
  cases cs with
  | nil => simp at h
  | cons c rest =>
    by_cases hm : c = '-'
    · have hr : 2 ≤ rest.count '.' := by
        subst hm; simpa [List.count_cons] using h
      simp [parseSigned, hm, parseUnsigned_none_of_two_dots rest hr]
    · by_cases hp : c = '+'
      · have hr : 2 ≤ rest.count '.' := by
          subst hp; simpa [List.count_cons] using h
        simp [parseSigned, hm, hp, parseUnsigned_none_of_two_dots rest hr]
      · simp [parseSigned, hm, hp,
          parseUnsigned_none_of_two_dots (c :: rest) h]

theorem parse_cell_none_of_two_commas (s : String)
    (h : 2 ≤ s.toList.count ',') : parse_cell s = none := by
  apply to_numeric_none_of_two_dots
  rw [count_dot_str_replace]
  omega

theorem mem_prepare_data_isSome {rows : List RawRow} {r : PreparedRow}
    (hr : r ∈ prepare_data rows) : r.date_heure.isSome ∧ r.pm10.isSome := by
  unfold prepare_data at hr
  rcases List.mem_map.mp hr with ⟨c, hc, hcr⟩
  rcases List.mem_filter.mp hc with ⟨-, hp⟩
  simp only [Bool.and_eq_true] at hp
  rw [← hcr]
  exact ⟨hp.1, hp.2⟩

theorem prepare_data_length (rows : List RawRow) :
    (prepare_data rows).length =
      (rows.filter (fun raw =>
        (to_datetime raw.dateHeure).isSome &&
          (parse_cell raw.pm10).isSome)).length := by
  unfold prepare_data
  rw [List.length_map, List.filter_map, List.length_map]
  have hpred : ((fun (r : ConvertedRow) => r.date_heure.isSome && r.pm10.isSome) ∘
      convertRow) =
      (fun raw => (to_datetime raw.dateHeure).isSome &&
        (parse_cell raw.pm10).isSome) := by
    funext raw
    rfl
  rw [hpred]

theorem prepare_data_retains {rows : List RawRow} {raw : RawRow}
    (h : raw ∈ rows) (h1 : (to_datetime raw.dateHeure).isSome)
    (h2 : (parse_cell raw.pm10).isSome) :
    addDerived (convertRow raw) ∈ prepare_data rows := by
  unfold prepare_data
  exact List.mem_map_of_mem _ (List.mem_filter.mpr
    ⟨List.mem_map_of_mem _ h, by simp [convertRow, h1, h2]⟩)

theorem prepare_drops_none_pm10 (raw : RawRow)
    (h : parse_cell raw.pm10 = none) : prepare_data [raw] = [] := by
  unfold prepare_data
  have hc : (convertRow raw).pm10 = none := h
  simp [List.filter, hc]

theorem date_le_trans {a b c : Date} (h1 : date_le a b) (h2 : date_le b c) :
    date_le a c := by
  unfold date_le at *
  omega

end AirDashboard

namespace AirDashboard

/-! ## Sample data used by witnesses -/

/-- Raw row of the scenario of the spec: timestamp with hour 8, decimal
comma values. -/
def sampleRawRow : RawRow :=
  ⟨"01/01/2023 08:00", "45,5", "12,3", "60,0"⟩

/-- Prepared row on a Monday at a peak hour, with a chosen PM10 value. -/
def mondayPeakRow (p : ℚ) : PreparedRow :=
  { dateHeure := "01/02/2023 08:00"
    pm10 := some p
    temp := none
    humi := none
    date_heure := some ⟨2023, 1, 2, 8, 0⟩
    date := ⟨2023, 1, 2⟩
    heure := 8
    weekday := 0
    jour_semaine := "Lundi"
    tranche_horaire := "Heures de pointe" }

/-! ## Claim theorems -/

/-- C1: the time-bucket derivation is a total function of the hour: for
every hour 0 to 23, the bucket is Heures de pointe exactly on [7,9] and
[17,19], Journée exactly on [10,16], Nuit / Soirée exactly on the
remaining hours 0-6 and 20-23, and every hour lands in one of the three
buckets, so the buckets partition the hours with inclusive boundaries. -/
theorem time_bucket_partition :
    ∀ h : ℕ, h ≤ 23 →
      (tranche_horaire h = "Heures de pointe" ↔
        (7 ≤ h ∧ h ≤ 9) ∨ (17 ≤ h ∧ h ≤ 19)) ∧
      (tranche_horaire h = "Journée" ↔ 10 ≤ h ∧ h ≤ 16) ∧
      (tranche_horaire h = "Nuit / Soirée" ↔
        h ≤ 6 ∨ (20 ≤ h ∧ h ≤ 23)) ∧
      (tranche_horaire h = "Heures de pointe" ∨
        tranche_horaire h = "Journée" ∨
        tranche_horaire h = "Nuit / Soirée") := by
  have hall : ∀ h : ℕ, h < 24 →
      (tranche_horaire h = "Heures de pointe" ↔
        (7 ≤ h ∧ h ≤ 9) ∨ (17 ≤ h ∧ h ≤ 19)) ∧
      (tranche_horaire h = "Journée" ↔ 10 ≤ h ∧ h ≤ 16) ∧
      (tranche_horaire h = "Nuit / Soirée" ↔
        h ≤ 6 ∨ (20 ≤ h ∧ h ≤ 23)) ∧
      (tranche_horaire h = "Heures de pointe" ∨
        tranche_horaire h = "Journée" ∨
        tranche_horaire h = "Nuit / Soirée") := by decide
  intro h hh
  exact hall h (by omega)

/-- Witness for C1 at concrete hours 8, 12 and 23. -/
theorem time_bucket_partition_witness :
    tranche_horaire 8 = "Heures de pointe" ∧
    tranche_horaire 12 = "Journée" ∧
    tranche_horaire 23 = "Nuit / Soirée" :=
  ⟨((time_bucket_partition 8 (by omega)).1).mpr (Or.inl (by omega)),
   ((time_bucket_partition 12 (by omega)).2.1).mpr (by omega),
   ((time_bucket_partition 23 (by omega)).2.2.1).mpr (Or.inr (by omega))⟩

/-- C2: on every raw dataset, every prepared row has a present parsed
timestamp and a present PM10 value; a raw row whose PM10 field is the
empty string gets a missing PM10 and is dropped; a raw row whose
timestamp and PM10 parse is retained whatever its temperature and
humidity fields hold; and the number of surviving rows is exactly the
number of raw rows whose timestamp and PM10 both parse. -/
theorem prepare_data_row_filtering (rows : List RawRow) :
    (∀ r ∈ prepare_data rows, r.date_heure.isSome ∧ r.pm10.isSome) ∧
    (∀ raw : RawRow, raw.pm10 = "" →
      (convertRow raw).pm10 = none ∧ prepare_data [raw] = []) ∧
    (∀ raw ∈ rows, (to_datetime raw.dateHeure).isSome →
      (parse_cell raw.pm10).isSome →
      addDerived (convertRow raw) ∈ prepare_data rows) ∧
    (prepare_data rows).length =
      (rows.filter (fun raw =>
        (to_datetime raw.dateHeure).isSome &&
          (parse_cell raw.pm10).isSome)).length := by
  refine ⟨fun r hr => mem_prepare_data_isSome hr, fun raw h => ?_,
    fun raw h h1 h2 => prepare_data_retains h h1 h2,
    prepare_data_length rows⟩
  have hcell : parse_cell raw.pm10 = none := by
    rw [h]
    rfl
  exact ⟨hcell, prepare_drops_none_pm10 raw hcell⟩

/-- Witness for C2: a raw row with empty PM10 is dropped, and the scenario
row with empty temperature and humidity survives preparation. -/
theorem prepare_data_row_filtering_witness :
    (convertRow ⟨"01/01/2023 08:00", "", "", ""⟩).pm10 = none ∧
    prepare_data [(⟨"01/01/2023 08:00", "", "", ""⟩ : RawRow)] = [] ∧
    addDerived (convertRow ⟨"01/01/2023 08:00", "45,5", "", ""⟩) ∈
      prepare_data [(⟨"01/01/2023 08:00", "45,5", "", ""⟩ : RawRow)] := by
  refine ⟨((prepare_data_row_filtering []).2.1 _ rfl).1,
    ((prepare_data_row_filtering []).2.1 _ rfl).2,
    (prepare_data_row_filtering
        [(⟨"01/01/2023 08:00", "45,5", "", ""⟩ : RawRow)]).2.2.1 _
      (by simp) ?_ ?_⟩
  · decide
  · decide

/-- C10: the comma replacement is global, so a numeric cell holding more
than one comma never parses: its value becomes missing, and a raw row
whose PM10 field holds more than one comma is dropped by preparation. -/
theorem comma_replacement_global (s : String)
    (h : 2 ≤ s.toList.count ',') :
    parse_cell s = none ∧
    ∀ raw : RawRow, raw.pm10 = s → prepare_data [raw] = [] := by
  have hp : parse_cell s = none := parse_cell_none_of_two_commas s h
  refine ⟨hp, fun raw hr => ?_⟩
  apply prepare_drops_none_pm10
  rw [hr]
  exact hp

/-- Witness for C10 at the concrete cell 1,234,5. -/
theorem comma_replacement_global_witness :
    parse_cell "1,234,5" = none ∧
    prepare_data [(⟨"01/01/2023 08:00", "1,234,5", "", ""⟩ : RawRow)] = [] :=
  ⟨(comma_replacement_global "1,234,5" (by decide)).1,
   (comma_replacement_global "1,234,5" (by decide)).2 _ rfl⟩

/-- C6: when the source path is missing or unreadable the loader fails
with DataSourceError, the error propagates through the dashboard script,
and no prepared dataset is produced, so rendering halts rather than
showing a partial dashboard. -/
theorem load_failure_halts (fs : String → Option (List RawRow))
    (h : fs CSV_PATH = none) :
    load_raw_data fs CSV_PATH =
      Except.error (DataSourceError.fileNotFound CSV_PATH) ∧
    run_dashboard fs =
      Except.error (DataSourceError.fileNotFound CSV_PATH) ∧
    ∀ df : List PreparedRow, run_dashboard fs ≠ Except.ok df := by
  have h1 : load_raw_data fs CSV_PATH =
      Except.error (DataSourceError.fileNotFound CSV_PATH) := by
    unfold load_raw_data
    rw [h]
  have h2 : run_dashboard fs =
      Except.error (DataSourceError.fileNotFound CSV_PATH) := by
    unfold run_dashboard
    rw [h1]
    rfl
  refine ⟨h1, h2, fun df hdf => ?_⟩
  rw [h2] at hdf
  exact Except.noConfusion hdf

/-- Witness for C6 on the empty filesystem. -/
theorem load_failure_halts_witness :
    load_raw_data (fun _ => none) CSV_PATH =
      Except.error (DataSourceError.fileNotFound CSV_PATH) ∧
    run_dashboard (fun _ => none) =
      Except.error (DataSourceError.fileNotFound CSV_PATH) :=
  ⟨(load_failure_halts (fun _ => none) rfl).1,
   (load_failure_halts (fun _ => none) rfl).2.1⟩

end AirDashboard

namespace AirDashboard

/-- Helper: full characterization of the band classification for an
arbitrary mean value. -/
theorem phrase_pm10_spec (m : ℚ) :
    (phrase_pm10 m = "Air de bonne qualité" ↔ m < 20) ∧
    (phrase_pm10 m = "Air moyen" ↔ 20 ≤ m ∧ m < 50) ∧
    (phrase_pm10 m = "Dépassement du seuil recommandé" ↔ 50 ≤ m) := by
  unfold phrase_pm10 SEUIL_PM10
  by_cases h1 : m < 20
  · rw [if_pos h1]
    refine ⟨⟨fun _ => h1, fun _ => rfl⟩,
      ⟨fun hs => absurd hs (by decide), fun ha => absurd h1 (not_lt.mpr ha.1)⟩,
      ⟨fun hs => absurd hs (by decide),
        fun ha => absurd h1 (not_lt.mpr (by linarith))⟩⟩
  · rw [if_neg h1]
    by_cases h2 : m < 50
    · rw [if_pos h2]
      refine ⟨⟨fun hs => absurd hs (by decide), fun hm => absurd hm h1⟩,
        ⟨fun _ => ⟨not_lt.mp h1, h2⟩, fun _ => rfl⟩,
        ⟨fun hs => absurd hs (by decide),
          fun ha => absurd h2 (not_lt.mpr ha)⟩⟩
    · rw [if_neg h2]
      refine ⟨⟨fun hs => absurd hs (by decide), fun hm => absurd hm h1⟩,
        ⟨fun hs => absurd hs (by decide), fun ha => absurd ha.2 h2⟩,
        ⟨fun _ => not_lt.mp h2, fun _ => rfl⟩⟩

/-- C3: the filter stage returns exactly the rows whose date lies in the
closed interval and whose bucket is in the allowed list: membership is
equivalent to the three conditions, matching rows keep their multiplicity,
an empty allowed list gives an empty result, and a start date after the
end date gives an empty result with no error. -/
theorem df_filtered_characterization (df : List PreparedRow)
    (date_debut date_fin : Date) (tranches : List String) :
    (∀ r, r ∈ df_filtered df date_debut date_fin tranches ↔
      r ∈ df ∧ date_le date_debut r.date ∧ date_le r.date date_fin ∧
        r.tranche_horaire ∈ tranches) ∧
    (∀ r, date_le date_debut r.date → date_le r.date date_fin →
      r.tranche_horaire ∈ tranches →
      (df_filtered df date_debut date_fin tranches).count r = df.count r) ∧
    (tranches = [] → df_filtered df date_debut date_fin tranches = []) ∧
    (¬ date_le date_debut date_fin →
      df_filtered df date_debut date_fin tranches = []) := by
  refine ⟨fun r => ?_, fun r h1 h2 h3 => ?_, fun ht => ?_, fun hd => ?_⟩
  · unfold df_filtered
    rw [List.mem_filter]
    simp [Bool.and_eq_true, decide_eq_true_eq, and_assoc]
  · unfold df_filtered
    exact List.count_filter (by simp [h1, h2, h3])
  · subst ht
    rw [List.eq_nil_iff_forall_not_mem]
    intro r hr
    have hp := (List.mem_filter.mp hr).2
    simp [Bool.and_eq_true, decide_eq_true_eq] at hp
  · rw [List.eq_nil_iff_forall_not_mem]
    intro r hr
    have hp := (List.mem_filter.mp hr).2
    simp only [Bool.and_eq_true, decide_eq_true_eq] at hp
    exact hd (date_le_trans hp.1.1 hp.1.2)

/-- Witness for C3 on a one-row collection: the empty bucket list empties
the result, a matching filter keeps the row with its multiplicity, and an
inverted date interval empties the result. -/
theorem df_filtered_characterization_witness :
    df_filtered [mondayPeakRow 10] ⟨2023, 1, 1⟩ ⟨2023, 1, 31⟩ [] = [] ∧
    (df_filtered [mondayPeakRow 10] ⟨2023, 1, 1⟩ ⟨2023, 1, 31⟩
        ["Heures de pointe"]).count (mondayPeakRow 10) =
      ([mondayPeakRow 10]).count (mondayPeakRow 10) ∧
    df_filtered [mondayPeakRow 10] ⟨2023, 1, 31⟩ ⟨2023, 1, 1⟩
      ["Heures de pointe"] = [] :=
  ⟨(df_filtered_characterization _ _ _ _).2.2.1 rfl,
   (df_filtered_characterization _ _ _ _).2.1 _ (by decide) (by decide)
     (by decide),
   (df_filtered_characterization _ _ _ _).2.2.2 (by decide)⟩

/-- C4: on a non-empty filtered collection the band classification of the
mean PM10 is good exactly below 20, moderate exactly on [20, 50), and the
exceeds band exactly from 50 on; a mean of exactly 20 is moderate and a
mean of exactly 50 is in the exceeds band. -/
theorem kpi_band_classification (df : List PreparedRow) (_hne : df ≠ []) :
    (phrase_pm10 (pm10_moyen df) = "Air de bonne qualité" ↔
      pm10_moyen df < 20) ∧
    (phrase_pm10 (pm10_moyen df) = "Air moyen" ↔
      20 ≤ pm10_moyen df ∧ pm10_moyen df < 50) ∧
    (phrase_pm10 (pm10_moyen df) = "Dépassement du seuil recommandé" ↔
      50 ≤ pm10_moyen df) ∧
    (pm10_moyen df = 20 → phrase_pm10 (pm10_moyen df) = "Air moyen") ∧
    (pm10_moyen df = 50 →
      phrase_pm10 (pm10_moyen df) = "Dépassement du seuil recommandé") := by
  refine ⟨(phrase_pm10_spec _).1, (phrase_pm10_spec _).2.1,
    (phrase_pm10_spec _).2.2, fun h20 => ?_, fun h50 => ?_⟩
  · exact ((phrase_pm10_spec _).2.1).mpr ⟨by rw [h20], by rw [h20]; norm_num⟩
  · exact ((phrase_pm10_spec _).2.2).mpr (by rw [h50])

/-- Witness for C4 on a one-row collection with PM10 value 10. -/
theorem kpi_band_classification_witness :
    phrase_pm10 (pm10_moyen [mondayPeakRow 10]) = "Air de bonne qualité" := by
  refine ((kpi_band_classification [mondayPeakRow 10] (by simp)).1).mpr ?_
  have hm : pm10_moyen [mondayPeakRow 10] = 10 := by
    simp [pm10_moyen, listMean, pm10Val, mondayPeakRow]
  rw [hm]
  norm_num

end AirDashboard

namespace AirDashboard

/-- C7: the KPI dispersion statistic over PM10 is the sample statistic
with denominator n - 1: it is the missing value exactly when the
collection has fewer than two readings (a value, never a raised error),
and otherwise multiplying it by n - 1 recovers the sum of squared
deviations from the mean. -/
theorem pm10_std_spec (df : List PreparedRow) :
    (pm10_std_sq df = none ↔ df.length < 2) ∧
    (∀ v, pm10_std_sq df = some v →
      v * ((df.length : ℚ) - 1) =
        ((df.map pm10Val).map
          (fun x => (x - pm10_moyen df) ^ 2)).sum) := by
  have hlen : (df.map pm10Val).length = df.length := List.length_map _ _
  constructor
  · unfold pm10_std_sq
    by_cases h : (df.map pm10Val).length < 2
    · rw [if_pos h]
      rw [hlen] at h
      simp [h]
    · rw [if_neg h]
      rw [hlen] at h
      simp [h]
  · intro v hv
    unfold pm10_std_sq at hv
    by_cases h : (df.map pm10Val).length < 2
    · rw [if_pos h] at hv
      exact absurd hv (by simp)
    · rw [if_neg h] at hv
      have hvv := Option.some.inj hv
      subst hvv
      rw [hlen] at h ⊢
      have h2 : (2 : ℚ) ≤ (df.length : ℚ) := by
        exact_mod_cast not_lt.mp h
      have hne : ((df.length : ℚ) - 1) ≠ 0 := by linarith
      exact div_mul_cancel₀ _ hne

/-- Witness for C7 on a two-row collection with PM10 values 10 and 30:
the statistic is defined and equals 200, and 200 times n - 1 equals the
sum of squared deviations. -/
theorem pm10_std_spec_witness :
    pm10_std_sq [mondayPeakRow 10, mondayPeakRow 30] = some 200 ∧
    (200 : ℚ) *
        ((([mondayPeakRow 10, mondayPeakRow 30] :
          List PreparedRow).length : ℚ) - 1) =
      (([mondayPeakRow 10, mondayPeakRow 30].map pm10Val).map
        (fun x =>
          (x - pm10_moyen [mondayPeakRow 10, mondayPeakRow 30]) ^ 2)).sum := by
  have hs : pm10_std_sq [mondayPeakRow 10, mondayPeakRow 30] = some 200 := by
    unfold pm10_std_sq
    norm_num [pm10Val, listMean, mondayPeakRow, List.sum_cons, List.sum_nil]
  exact ⟨hs, (pm10_std_spec _).2 200 hs⟩

/-- C9: the grouped aggregation holds one entry per weekday-bucket pair
present in the input, and only those, carrying the arithmetic mean of the
PM10 values of the rows with that pair; the key pairs are pairwise
distinct. -/
theorem heatmap_agg_spec (df : List PreparedRow) (k : String × String)
    (m : ℚ) :
    ((k, m) ∈ heatmap_agg df ↔
      (∃ r ∈ df, rowKey r = k) ∧ m = listMean (groupPm10 df k)) ∧
    ((heatmap_agg df).map Prod.fst).Nodup := by
  constructor
  · unfold heatmap_agg
    rw [List.mem_map]
    constructor
    · rintro ⟨k2, hk2, hEq⟩
      have h1 : k2 = k := congrArg Prod.fst hEq
      have h2 : listMean (groupPm10 df k2) = m := congrArg Prod.snd hEq
      subst h1
      rw [List.mem_dedup, List.mem_map] at hk2
      exact ⟨hk2, h2.symm⟩
    · rintro ⟨⟨r, hr, hrk⟩, hm⟩
      refine ⟨k, ?_, ?_⟩
      · rw [List.mem_dedup, List.mem_map]
        exact ⟨r, hr, hrk⟩
      · rw [hm]
  · unfold heatmap_agg
    rw [List.map_map]
    have hcomp : (Prod.fst ∘ fun k2 : String × String =>
        (k2, listMean (groupPm10 df k2))) = id := rfl
    rw [hcomp, List.map_id]
    exact List.nodup_dedup _

/-- Witness for C9: two readings on Monday at peak hours with PM10 values
10 and 30 give the single group mean 20. -/
theorem heatmap_agg_spec_witness :
    (("Lundi", "Heures de pointe"), (20 : ℚ)) ∈
      heatmap_agg [mondayPeakRow 10, mondayPeakRow 30] := by
  refine ((heatmap_agg_spec [mondayPeakRow 10, mondayPeakRow 30]
      ("Lundi", "Heures de pointe") 20).1).mpr
    ⟨⟨mondayPeakRow 10, by simp, rfl⟩, ?_⟩
  have hg : groupPm10 [mondayPeakRow 10, mondayPeakRow 30]
      ("Lundi", "Heures de pointe") = [10, 30] := rfl
  rw [hg]
  norm_num [listMean, List.sum_cons, List.sum_nil]

/-- C8: preparing the single raw row with timestamp 01/01/2023 08:00 and
cells 45,5 / 12,3 / 60,0 yields exactly one prepared record, with hour 8,
bucket Heures de pointe and PM10 value 45.5. -/
theorem scenario_single_row :
    (prepare_data [sampleRawRow]).map
        (fun r => (r.heure, r.tranche_horaire, r.pm10)) =
      [(8, "Heures de pointe", some (45.5 : ℚ))] ∧
    (prepare_data [sampleRawRow]).length = 1 := by
  constructor
  · have h : (prepare_data [sampleRawRow]).map
        (fun r => (r.heure, r.tranche_horaire, r.pm10)) =
        [(8, "Heures de pointe",
          some ((45 : ℚ) + (5 : ℚ) / ((10 : ℚ) ^ (1 : ℕ))))] := rfl
    rw [h]
    norm_num
  · rfl

end AirDashboard

namespace AirDashboard

/-- Counterexample to C5: the export function serializes the whole
filtered frame, so already on the empty filtered collection the produced
text has a header with ten columns — the six columns the claim names plus
the raw timestamp string, date, heure and weekday index — not exactly
six. -/
theorem convert_df_not_six_columns :
    convert_df [] =
      "date/heure,PM10,TEMP,HUMI,date_heure,date,heure,weekday,jour_semaine,tranche_horaire\n" ∧
    csv_header.length = 10 ∧
    csv_header ≠
      ["date_heure", "PM10", "TEMP", "HUMI", "jour_semaine",
        "tranche_horaire"] := by
  refine ⟨rfl, rfl, ?_⟩
  decide

/-- C5 as amended: the export produces a comma-separated text blob (the
utf-8 encoding is the identity on it) with a header row and one data row
per reading of the filtered subset, whose columns are the ten columns of
the filtered frame — timestamp, PM10, TEMP, HUMI, weekday name and time
bucket as claimed, plus the raw timestamp string, date, hour and weekday
index. -/
theorem convert_df_amended (df : List PreparedRow) :
    convert_df df =
      String.join ((csv_lines df).map (fun line => line ++ "\n")) ∧
    (csv_lines df).length = df.length + 1 ∧
    (csv_lines df).head? = some (String.intercalate "," csv_header) ∧
    csv_header.length = 10 ∧
    ∀ r ∈ df, String.intercalate "," (csv_row r) ∈ csv_lines df ∧
      (csv_row r).length = 10 := by
  refine ⟨rfl, ?_, rfl, rfl, fun r hr => ⟨?_, rfl⟩⟩
  · unfold csv_lines
    simp
  · unfold csv_lines
    exact List.mem_cons_of_mem _ (List.mem_map_of_mem _ hr)

/-- Witness for the amended C5 on a one-row collection. -/
theorem convert_df_amended_witness :
    String.intercalate "," (csv_row (mondayPeakRow 10)) ∈
      csv_lines [mondayPeakRow 10] ∧
    (csv_lines [mondayPeakRow 10]).length = 2 := by
  refine ⟨((convert_df_amended [mondayPeakRow 10]).2.2.2.2 _ (by simp)).1, ?_⟩
  have h := (convert_df_amended [mondayPeakRow 10]).2.1
  simpa using h

end AirDashboard
